import Mathlib

/-!
Shallow embedding of `src/stack.rs` from the `evm-inspectors` crate: the
`Hook` activation policy, the `InspectorStack` multiplexer with its single
optional `CustomPrintTracer` observer slot, the `InspectorStackConfig`
construction, and the `Inspector` trait dispatch methods built on the
`call_inspectors!` macro.

External `revm`/`alloy` types are modelled abstractly: the tracer state and
the per-event payload types are type parameters; `&mut` mutation in Rust
becomes explicit state passing; the partial `Uint::to::<u64>` conversion
(which panics when the value does not fit) becomes an `Option`.
-/

namespace EvmInspectors

/-- `alloy_primitives::B256`, an opaque equality-comparable 256-bit hash,
modelled as a natural number. -/
abbrev B256 := Nat

/-- The block portion of `revm::primitives::Env`, restricted to the one field
the code reads: the `U256` block `number`, modelled as a natural number. -/
structure BlockEnv where
  number : Nat
deriving DecidableEq

/-- `revm::primitives::Env`, restricted to the fields the code reads. -/
structure Env where
  block : BlockEnv
deriving DecidableEq

/-- `Uint::to::<u64>()` from `alloy_primitives`: converts a `U256` to `u64`,
panicking when the value does not fit in 64 bits. The panic is modelled as
`none`. -/
def toU64 (n : Nat) : Option Nat :=
  if n < 2 ^ 64 then some n else none

/-- The `Hook` enum from `stack.rs`: no hook, a specific block number (u64),
a specific transaction hash, or every transaction. -/
inductive Hook where
  | None : Hook
  | Block : Nat → Hook
  | Transaction : B256 → Hook
  | All : Hook
deriving DecidableEq

/-- `InspectorStack`: one optional observer slot (`custom_print_tracer`) and
the hook configuration. The tracer state type `τ` is a parameter because
`CustomPrintTracer` lives in the external `revm` crate. -/
structure InspectorStack (τ : Type) where
  custom_print_tracer : Option τ
  hook : Hook
deriving DecidableEq

/-- `InspectorStackConfig` from `stack.rs`. -/
structure InspectorStackConfig where
  use_printer_tracer : Bool
  hook : Hook
deriving DecidableEq

/-- `InspectorStack::new`: starts from the default stack with the configured
hook, then populates the tracer slot with `CustomPrintTracer::default()`
exactly when `use_printer_tracer` is set. `Inhabited.default` models
`CustomPrintTracer::default()`. -/
def InspectorStack.new {τ : Type} [Inhabited τ] (config : InspectorStackConfig) :
    InspectorStack τ :=
  let stack : InspectorStack τ :=
    { custom_print_tracer := Option.none, hook := config.hook }
  if config.use_printer_tracer then
    { stack with custom_print_tracer := some default }
  else
    stack

/-- `InspectorStack::should_inspect`: dispatch on the hook. The `Block` arm
evaluates `env.block.number.to::<u64>() == block`; the conversion panics
(`none`) when the block number does not fit in 64 bits. -/
def InspectorStack.should_inspect {τ : Type} (s : InspectorStack τ) (env : Env)
    (tx_hash : B256) : Option Bool :=
  match s.hook with
  | Hook.None => some false
  | Hook.Block block => (toU64 env.block.number).map fun n => decide (n = block)
  | Hook.Transaction hash => some (decide (hash = tx_hash))
  | Hook.All => some true

section Dispatch

variable {τ Ctx Interp CallIn CallOut CreateIn CreateOut LogRec Addr Val : Type}

/-- The `Inspector` trait methods of the observer hosted in the stack's slot
(`CustomPrintTracer`), purified: each `&mut` receiver or argument appears in
the result. The behavior itself is abstract, since the tracer is external
code. -/
structure Inspector (τ Ctx Interp CallIn CallOut CreateIn CreateOut LogRec Addr Val : Type) where
  initialize_interp : τ → Interp → Ctx → τ × Interp × Ctx
  step : τ → Interp → Ctx → τ × Interp × Ctx
  step_end : τ → Interp → Ctx → τ × Interp × Ctx
  log : τ → Ctx → LogRec → τ × Ctx
  call : τ → Ctx → CallIn → τ × Ctx × CallIn × Option CallOut
  call_end : τ → Ctx → CallIn → CallOut → τ × Ctx × CallOut
  create : τ → Ctx → CreateIn → τ × Ctx × CreateIn × Option CreateOut
  create_end : τ → Ctx → CreateIn → CreateOut → τ × Ctx × CreateOut
  selfdestruct : τ → Addr → Addr → Val → τ

/-- The expansion of `call_inspectors!` around the `call_end`/`create_end`
body, for a general inspector list `[i1, ..., in]`: for each populated slot
in declaration order run `call_end` on a clone of the original `outcome`,
and `return new_ret` as soon as `new_ret != outcome`; when every populated
slot falls through, return the original `outcome`. `σ` is the ambient
mutable state (the inspector together with the evm context) threaded through
the calls. -/
def call_inspectors_end {σ ω : Type} [DecidableEq ω]
    (inspectors : List (Option (σ → ω → σ × ω))) (s : σ) (outcome : ω) : σ × ω :=
  match inspectors with
  | [] => (s, outcome)
  | Option.none :: rest => call_inspectors_end rest s outcome
  | some f :: rest =>
    let r := f s outcome
    if r.2 ≠ outcome then r else call_inspectors_end rest r.1 outcome

/-- `Inspector::initialize_interp` for `InspectorStack`: fan out to the
populated slot. -/
def InspectorStack.initialize_interp
    (I : Inspector τ Ctx Interp CallIn CallOut CreateIn CreateOut LogRec Addr Val)
    (s : InspectorStack τ) (interp : Interp) (context : Ctx) :
    InspectorStack τ × Interp × Ctx :=
  match s.custom_print_tracer with
  | Option.none => (s, interp, context)
  | some t =>
    let r := I.initialize_interp t interp context
    ({ s with custom_print_tracer := some r.1 }, r.2.1, r.2.2)

/-- `Inspector::step` for `InspectorStack`. -/
def InspectorStack.step
    (I : Inspector τ Ctx Interp CallIn CallOut CreateIn CreateOut LogRec Addr Val)
    (s : InspectorStack τ) (interp : Interp) (context : Ctx) :
    InspectorStack τ × Interp × Ctx :=
  match s.custom_print_tracer with
  | Option.none => (s, interp, context)
  | some t =>
    let r := I.step t interp context
    ({ s with custom_print_tracer := some r.1 }, r.2.1, r.2.2)

/-- `Inspector::step_end` for `InspectorStack`. -/
def InspectorStack.step_end
    (I : Inspector τ Ctx Interp CallIn CallOut CreateIn CreateOut LogRec Addr Val)
    (s : InspectorStack τ) (interp : Interp) (context : Ctx) :
    InspectorStack τ × Interp × Ctx :=
  match s.custom_print_tracer with
  | Option.none => (s, interp, context)
  | some t =>
    let r := I.step_end t interp context
    ({ s with custom_print_tracer := some r.1 }, r.2.1, r.2.2)

/-- `Inspector::log` for `InspectorStack` (the log record is taken by shared
reference in the source, so it is not returned). -/
def InspectorStack.log
    (I : Inspector τ Ctx Interp CallIn CallOut CreateIn CreateOut LogRec Addr Val)
    (s : InspectorStack τ) (context : Ctx) (lg : LogRec) :
    InspectorStack τ × Ctx :=
  match s.custom_print_tracer with
  | Option.none => (s, context)
  | some t =>
    let r := I.log t context lg
    ({ s with custom_print_tracer := some r.1 }, r.2)

/-- `Inspector::call` for `InspectorStack`: run the populated slot's `call`
and flatten, so an empty slot yields no override. -/
def InspectorStack.call
    (I : Inspector τ Ctx Interp CallIn CallOut CreateIn CreateOut LogRec Addr Val)
    (s : InspectorStack τ) (context : Ctx) (inputs : CallIn) :
    InspectorStack τ × Ctx × CallIn × Option CallOut :=
  match s.custom_print_tracer with
  | Option.none => (s, context, inputs, Option.none)
  | some t =>
    let r := I.call t context inputs
    ({ s with custom_print_tracer := some r.1 }, r.2.1, r.2.2.1, r.2.2.2)

/-- `Inspector::call_end` for `InspectorStack`: run the populated slot's
`call_end` on a clone of `outcome`; if `new_ret != outcome` return `new_ret`
immediately, otherwise return the original `outcome`. -/
def InspectorStack.call_end [DecidableEq CallOut]
    (I : Inspector τ Ctx Interp CallIn CallOut CreateIn CreateOut LogRec Addr Val)
    (s : InspectorStack τ) (context : Ctx) (inputs : CallIn) (outcome : CallOut) :
    InspectorStack τ × Ctx × CallOut :=
  match s.custom_print_tracer with
  | Option.none => (s, context, outcome)
  | some t =>
    let r := I.call_end t context inputs outcome
    if r.2.2 ≠ outcome then ({ s with custom_print_tracer := some r.1 }, r.2.1, r.2.2)
    else ({ s with custom_print_tracer := some r.1 }, r.2.1, outcome)

/-- `Inspector::create` for `InspectorStack`. -/
def InspectorStack.create
    (I : Inspector τ Ctx Interp CallIn CallOut CreateIn CreateOut LogRec Addr Val)
    (s : InspectorStack τ) (context : Ctx) (inputs : CreateIn) :
    InspectorStack τ × Ctx × CreateIn × Option CreateOut :=
  match s.custom_print_tracer with
  | Option.none => (s, context, inputs, Option.none)
  | some t =>
    let r := I.create t context inputs
    ({ s with custom_print_tracer := some r.1 }, r.2.1, r.2.2.1, r.2.2.2)

/-- `Inspector::create_end` for `InspectorStack`, identical in shape to
`call_end`. -/
def InspectorStack.create_end [DecidableEq CreateOut]
    (I : Inspector τ Ctx Interp CallIn CallOut CreateIn CreateOut LogRec Addr Val)
    (s : InspectorStack τ) (context : Ctx) (inputs : CreateIn) (outcome : CreateOut) :
    InspectorStack τ × Ctx × CreateOut :=
  match s.custom_print_tracer with
  | Option.none => (s, context, outcome)
  | some t =>
    let r := I.create_end t context inputs outcome
    if r.2.2 ≠ outcome then ({ s with custom_print_tracer := some r.1 }, r.2.1, r.2.2)
    else ({ s with custom_print_tracer := some r.1 }, r.2.1, outcome)

/-- `Inspector::selfdestruct` for `InspectorStack`. -/
def InspectorStack.selfdestruct
    (I : Inspector τ Ctx Interp CallIn CallOut CreateIn CreateOut LogRec Addr Val)
    (s : InspectorStack τ) (contract : Addr) (target : Addr) (value : Val) :
    InspectorStack τ :=
  match s.custom_print_tracer with
  | Option.none => s
  | some t => { s with custom_print_tracer := some (I.selfdestruct t contract target value) }

end Dispatch

/-- A concrete observer over unit payload types, used to exercise the
dispatch definitions on closed inputs. -/
def unitObserver : Inspector Unit Unit Unit Unit Unit Unit Unit Unit Unit Unit where
  initialize_interp := fun t i c => (t, i, c)
  step := fun t i c => (t, i, c)
  step_end := fun t i c => (t, i, c)
  log := fun t c _ => (t, c)
  call := fun t c i => (t, c, i, some ())
  call_end := fun t c _ o => (t, c, o)
  create := fun t c i => (t, c, i, some ())
  create_end := fun t c _ o => (t, c, o)
  selfdestruct := fun t _ _ _ => t

/-- A concrete `call_end`-style observer body that leaves the outcome alone
while bumping the ambient state. -/
def obsKeep : Nat → Nat → Nat × Nat := fun u o => (u + 1, o)

/-- A concrete `call_end`-style observer body that rewrites the outcome. -/
def obsBump : Nat → Nat → Nat × Nat := fun u o => (u, o + 1)

/-- Dispatching `call_end` bodies over an appended inspector list
short-circuits exactly when the first segment already produced a changed
outcome, and otherwise continues into the second segment from the threaded
state. -/
theorem call_inspectors_end_append {σ ω : Type} [DecidableEq ω]
    (a b : List (Option (σ → ω → σ × ω))) (s : σ) (outcome : ω) :
    call_inspectors_end (a ++ b) s outcome =
      (if (call_inspectors_end a s outcome).2 = outcome
       then call_inspectors_end b (call_inspectors_end a s outcome).1 outcome
       else call_inspectors_end a s outcome) := by
  induction a generalizing s with
  | nil => simp [call_inspectors_end]
  | cons hd rest ih =>
    cases hd with
    | none => simpa [call_inspectors_end] using ih s
    | some f =>
      by_cases h : (f s outcome).2 = outcome
      · simpa [call_inspectors_end, h] using ih (f s outcome).1
      · simp [call_inspectors_end, h]

/-- When every populated observer of the list returns the outcome it was
given (whatever the ambient state), the dispatch falls through to the
original outcome. -/
theorem call_inspectors_end_unchanged {σ ω : Type} [DecidableEq ω]
    (obs : List (Option (σ → ω → σ × ω))) (s : σ) (outcome : ω)
    (h : ∀ g, some g ∈ obs → ∀ u, (g u outcome).2 = outcome) :
    (call_inspectors_end obs s outcome).2 = outcome := by
  induction obs generalizing s with
  | nil => rfl
  | cons hd rest ih =>
    cases hd with
    | none => exact ih s (fun g hg u => h g (List.mem_cons_of_mem _ hg) u)
    | some f =>
      have hf := h f (List.mem_cons_self _ _) s
      simpa [call_inspectors_end, hf] using
        ih (f s outcome).1 (fun g hg u => h g (List.mem_cons_of_mem _ hg) u)

/-- C1: in `call_end`/`create_end` dispatch over a sequence of populated
observers, the first observer in declaration order whose returned outcome
differs, by value equality, from the outcome it received becomes the final
result immediately and no later observer is consulted (the result is the
same for every tail of later observers); if every populated observer returns
an outcome value-equal to what it received, the dispatch returns the
original outcome unchanged. The stack's `call_end` and `create_end` realize
the two cases for their single declared observer slot. -/
theorem call_end_first_change_wins {σ ω : Type} [DecidableEq ω]
    {τ Ctx Interp CallIn CallOut CreateIn CreateOut LogRec Addr Val : Type}
    [DecidableEq CallOut] [DecidableEq CreateOut]
    (pre : List (Option (σ → ω → σ × ω))) (f : σ → ω → σ × ω)
    (s s₁ : σ) (outcome : ω)
    (I : Inspector τ Ctx Interp CallIn CallOut CreateIn CreateOut LogRec Addr Val)
    (st : InspectorStack τ) (t : τ) (context : Ctx)
    (cin : CallIn) (cout : CallOut) (crin : CreateIn) (crout : CreateOut)
    (hpre : call_inspectors_end pre s outcome = (s₁, outcome))
    (hchg : (f s₁ outcome).2 ≠ outcome)
    (ht : st.custom_print_tracer = some t) :
    (∀ post, call_inspectors_end (pre ++ some f :: post) s outcome = f s₁ outcome) ∧
    (∀ (obs : List (Option (σ → ω → σ × ω))) (u : σ),
      (∀ g, some g ∈ obs → ∀ v, (g v outcome).2 = outcome) →
      (call_inspectors_end obs u outcome).2 = outcome) ∧
    ((I.call_end t context cin cout).2.2 ≠ cout →
      (InspectorStack.call_end I st context cin cout).2.2
        = (I.call_end t context cin cout).2.2) ∧
    ((I.call_end t context cin cout).2.2 = cout →
      (InspectorStack.call_end I st context cin cout).2.2 = cout) ∧
    ((I.create_end t context crin crout).2.2 ≠ crout →
      (InspectorStack.create_end I st context crin crout).2.2
        = (I.create_end t context crin crout).2.2) ∧
    ((I.create_end t context crin crout).2.2 = crout →
      (InspectorStack.create_end I st context crin crout).2.2 = crout) := by
  refine ⟨fun post => ?_, fun obs u h => call_inspectors_end_unchanged obs u outcome h,
    fun h => ?_, fun h => ?_, fun h => ?_, fun h => ?_⟩
  · rw [call_inspectors_end_append, hpre]
    simp [call_inspectors_end, hchg]
  · simp [InspectorStack.call_end, ht, h]
  · simp [InspectorStack.call_end, ht, h]
  · simp [InspectorStack.create_end, ht, h]
  · simp [InspectorStack.create_end, ht, h]

/-- Witness for C1 at concrete inputs: a skipped empty slot, an observer that
keeps the outcome, then one that rewrites it, with arbitrary later observers
never affecting the result. -/
theorem call_end_first_change_wins_witness :
    (∀ post, call_inspectors_end ([Option.none, some obsKeep] ++ some obsBump :: post) 0 5
      = obsBump 1 5) ∧
    (∀ (obs : List (Option (Nat → Nat → Nat × Nat))) (u : Nat),
      (∀ g, some g ∈ obs → ∀ v, (g v 5).2 = 5) →
      (call_inspectors_end obs u 5).2 = 5) ∧
    ((unitObserver.call_end () () () ()).2.2 ≠ () →
      (InspectorStack.call_end unitObserver ⟨some (), Hook.All⟩ () () ()).2.2
        = (unitObserver.call_end () () () ()).2.2) ∧
    ((unitObserver.call_end () () () ()).2.2 = () →
      (InspectorStack.call_end unitObserver ⟨some (), Hook.All⟩ () () ()).2.2 = ()) ∧
    ((unitObserver.create_end () () () ()).2.2 ≠ () →
      (InspectorStack.create_end unitObserver ⟨some (), Hook.All⟩ () () ()).2.2
        = (unitObserver.create_end () () () ()).2.2) ∧
    ((unitObserver.create_end () () () ()).2.2 = () →
      (InspectorStack.create_end unitObserver ⟨some (), Hook.All⟩ () () ()).2.2 = ()) :=
  call_end_first_change_wins [Option.none, some obsKeep] obsBump 0 1 5
    unitObserver ⟨some (), Hook.All⟩ () () () () () () (by rfl) (by decide) rfl

/-- C2: in `call`/`create` dispatch the populated observers are consulted in
declaration order (the stack declares the single `custom_print_tracer`
slot); the first one returning an override `some o` short-circuits the
dispatch, which returns `some o`; when no populated observer returns an
override, the dispatch returns no override. -/
theorem call_first_override_wins
    {τ Ctx Interp CallIn CallOut CreateIn CreateOut LogRec Addr Val : Type}
    (I : Inspector τ Ctx Interp CallIn CallOut CreateIn CreateOut LogRec Addr Val)
    (s : InspectorStack τ) (context : Ctx) (cin : CallIn) (crin : CreateIn) :
    (∀ t o, s.custom_print_tracer = some t → (I.call t context cin).2.2.2 = some o →
      (InspectorStack.call I s context cin).2.2.2 = some o) ∧
    ((∀ t, s.custom_print_tracer = some t → (I.call t context cin).2.2.2 = Option.none) →
      (InspectorStack.call I s context cin).2.2.2 = Option.none) ∧
    (∀ t o, s.custom_print_tracer = some t → (I.create t context crin).2.2.2 = some o →
      (InspectorStack.create I s context crin).2.2.2 = some o) ∧
    ((∀ t, s.custom_print_tracer = some t → (I.create t context crin).2.2.2 = Option.none) →
      (InspectorStack.create I s context crin).2.2.2 = Option.none) := by
  refine ⟨fun t o ht ho => ?_, fun h => ?_, fun t o ht ho => ?_, fun h => ?_⟩
  · simp [InspectorStack.call, ht, ho]
  · cases hslot : s.custom_print_tracer with
    | none => simp [InspectorStack.call, hslot]
    | some t => simp [InspectorStack.call, hslot, h t hslot]
  · simp [InspectorStack.create, ht, ho]
  · cases hslot : s.custom_print_tracer with
    | none => simp [InspectorStack.create, hslot]
    | some t => simp [InspectorStack.create, hslot, h t hslot]

/-- C3 counterexample: with hook `Block 0`, a block number of `2 ^ 64` and
any transaction hash, the truth table demands `false` (the height differs
from 0) but `should_inspect` hits the panicking u64 conversion instead of
returning a boolean. -/
theorem should_inspect_truth_table_counterexample :
    ¬ (({ custom_print_tracer := Option.none, hook := Hook.Block 0 } : InspectorStack Unit).should_inspect
        ⟨⟨2 ^ 64⟩⟩ 0 = some false) := by decide

/-- C3 (amended): for every environment whose block number fits in 64 bits,
`should_inspect` returns exactly the truth table of the four hook variants:
`None` yields `false`; `Block h` yields `true` iff the block height equals
`h`; `Transaction id` yields `true` iff the transaction hash equals `id`;
`All` yields `true`. -/
theorem should_inspect_truth_table {τ : Type} (s : InspectorStack τ) (env : Env)
    (tx_hash : B256) (hfit : env.block.number < 2 ^ 64) :
    s.should_inspect env tx_hash =
      some (match s.hook with
        | Hook.None => false
        | Hook.Block block => decide (env.block.number = block)
        | Hook.Transaction hash => decide (hash = tx_hash)
        | Hook.All => true) := by
  have hfit' : env.block.number < 18446744073709551616 := by simpa using hfit
  cases h : s.hook <;> simp [InspectorStack.should_inspect, toU64, h, hfit']

/-- Witness for C3 at a concrete boundary-equality input: hook `Block 7`
against block height 7 yields `true`. -/
theorem should_inspect_truth_table_witness :
    ({ custom_print_tracer := Option.none, hook := Hook.Block 7 } : InspectorStack Unit).should_inspect
      ⟨⟨7⟩⟩ 0 = some true :=
  should_inspect_truth_table ⟨Option.none, Hook.Block 7⟩ ⟨⟨7⟩⟩ 0 (by norm_num)

/-- C4 counterexample: `should_inspect` is not total; with hook `Block 0` and
a block number that does not fit in 64 bits it panics (no boolean is
returned). -/
theorem should_inspect_total_counterexample :
    ({ custom_print_tracer := Option.none, hook := Hook.Block 0 } : InspectorStack Unit).should_inspect
        ⟨⟨2 ^ 64⟩⟩ 0 = Option.none := by decide

/-- C4 (amended): `should_inspect` is pure and returns a boolean for every
hook variant, environment and transaction hash, except that the `Block` arm
panics when the environment's block number does not fit in 64 bits. -/
theorem should_inspect_total {τ : Type} (s : InspectorStack τ) (env : Env)
    (tx_hash : B256)
    (hfit : ∀ block, s.hook = Hook.Block block → env.block.number < 2 ^ 64) :
    ∃ r : Bool, s.should_inspect env tx_hash = some r := by
  cases h : s.hook with
  | None => exact ⟨false, by simp [InspectorStack.should_inspect, h]⟩
  | Block block =>
    have hf : env.block.number < 18446744073709551616 := by simpa using hfit block h
    exact ⟨decide (env.block.number = block),
      by simp [InspectorStack.should_inspect, toU64, h, hf]⟩
  | Transaction hash =>
    exact ⟨decide (hash = tx_hash), by simp [InspectorStack.should_inspect, h]⟩
  | All => exact ⟨true, by simp [InspectorStack.should_inspect, h]⟩

/-- Witness for C4 at a concrete input with a fitting block number. -/
theorem should_inspect_total_witness :
    ∃ r : Bool, ({ custom_print_tracer := Option.none, hook := Hook.Block 3 } : InspectorStack Unit).should_inspect
      ⟨⟨3⟩⟩ 0 = some r :=
  should_inspect_total ⟨Option.none, Hook.Block 3⟩ ⟨⟨3⟩⟩ 0 (by intro b hb; norm_num)

/-- A `call_end`/`create_end` observer over `Nat` outcomes that bumps its
internal counter as a side effect but returns the outcome it received. -/
def countingObserver : Inspector Nat Unit Unit Unit Nat Unit Nat Unit Unit Unit where
  initialize_interp := fun t i c => (t, i, c)
  step := fun t i c => (t, i, c)
  step_end := fun t i c => (t, i, c)
  log := fun t c _ => (t, c)
  call := fun t c i => (t, c, i, Option.none)
  call_end := fun t c _ o => (t + 1, c, o)
  create := fun t c i => (t, c, i, Option.none)
  create_end := fun t c _ o => (t + 1, c, o)
  selfdestruct := fun t _ _ _ => t

/-- The observer over `Nat` outcomes that changes nothing at all. -/
def idObserver : Inspector Nat Unit Unit Unit Nat Unit Nat Unit Unit Unit where
  initialize_interp := fun t i c => (t, i, c)
  step := fun t i c => (t, i, c)
  step_end := fun t i c => (t, i, c)
  log := fun t c _ => (t, c)
  call := fun t c i => (t, c, i, Option.none)
  call_end := fun t c _ o => (t, c, o)
  create := fun t c i => (t, c, i, Option.none)
  create_end := fun t c _ o => (t, c, o)
  selfdestruct := fun t _ _ _ => t

/-- C5: with the observer slot empty, every dispatch method is a no-op:
`call`/`create` return no override, `call_end`/`create_end` return the input
outcome unchanged, and the remaining methods change nothing. -/
theorem empty_stack_dispatch_noop
    {τ Ctx Interp CallIn CallOut CreateIn CreateOut LogRec Addr Val : Type}
    [DecidableEq CallOut] [DecidableEq CreateOut]
    (I : Inspector τ Ctx Interp CallIn CallOut CreateIn CreateOut LogRec Addr Val)
    (s : InspectorStack τ) (interp : Interp) (context : Ctx) (lg : LogRec)
    (cin : CallIn) (cout : CallOut) (crin : CreateIn) (crout : CreateOut)
    (a b : Addr) (v : Val)
    (h : s.custom_print_tracer = Option.none) :
    InspectorStack.initialize_interp I s interp context = (s, interp, context) ∧
    InspectorStack.step I s interp context = (s, interp, context) ∧
    InspectorStack.step_end I s interp context = (s, interp, context) ∧
    InspectorStack.log I s context lg = (s, context) ∧
    InspectorStack.call I s context cin = (s, context, cin, Option.none) ∧
    InspectorStack.call_end I s context cin cout = (s, context, cout) ∧
    InspectorStack.create I s context crin = (s, context, crin, Option.none) ∧
    InspectorStack.create_end I s context crin crout = (s, context, crout) ∧
    InspectorStack.selfdestruct I s a b v = s := by
  refine ⟨?_, ?_, ?_, ?_, ?_, ?_, ?_, ?_, ?_⟩ <;>
    simp [InspectorStack.initialize_interp, InspectorStack.step, InspectorStack.step_end,
      InspectorStack.log, InspectorStack.call, InspectorStack.call_end,
      InspectorStack.create, InspectorStack.create_end, InspectorStack.selfdestruct, h]

/-- Witness for C5 on the empty unit stack. -/
theorem empty_stack_dispatch_noop_witness :
    InspectorStack.initialize_interp unitObserver ⟨Option.none, Hook.All⟩ () ()
      = (⟨Option.none, Hook.All⟩, (), ()) ∧
    InspectorStack.step unitObserver ⟨Option.none, Hook.All⟩ () ()
      = (⟨Option.none, Hook.All⟩, (), ()) ∧
    InspectorStack.step_end unitObserver ⟨Option.none, Hook.All⟩ () ()
      = (⟨Option.none, Hook.All⟩, (), ()) ∧
    InspectorStack.log unitObserver ⟨Option.none, Hook.All⟩ () ()
      = (⟨Option.none, Hook.All⟩, ()) ∧
    InspectorStack.call unitObserver ⟨Option.none, Hook.All⟩ () ()
      = (⟨Option.none, Hook.All⟩, (), (), Option.none) ∧
    InspectorStack.call_end unitObserver ⟨Option.none, Hook.All⟩ () () ()
      = (⟨Option.none, Hook.All⟩, (), ()) ∧
    InspectorStack.create unitObserver ⟨Option.none, Hook.All⟩ () ()
      = (⟨Option.none, Hook.All⟩, (), (), Option.none) ∧
    InspectorStack.create_end unitObserver ⟨Option.none, Hook.All⟩ () () ()
      = (⟨Option.none, Hook.All⟩, (), ()) ∧
    InspectorStack.selfdestruct unitObserver ⟨Option.none, Hook.All⟩ () () ()
      = ⟨Option.none, Hook.All⟩ :=
  empty_stack_dispatch_noop unitObserver ⟨Option.none, Hook.All⟩ () () () () () () () () () ()
    rfl

/-- C6: with exactly one observer populated, every dispatch method returns
the observer's own result on the same input, with the updated observer put
back in its slot: the multiplexer is observationally a pass-through to the
single observer. -/
theorem singleton_stack_passthrough
    {τ Ctx Interp CallIn CallOut CreateIn CreateOut LogRec Addr Val : Type}
    [DecidableEq CallOut] [DecidableEq CreateOut]
    (I : Inspector τ Ctx Interp CallIn CallOut CreateIn CreateOut LogRec Addr Val)
    (s : InspectorStack τ) (t : τ) (interp : Interp) (context : Ctx) (lg : LogRec)
    (cin : CallIn) (cout : CallOut) (crin : CreateIn) (crout : CreateOut)
    (a b : Addr) (v : Val)
    (h : s.custom_print_tracer = some t) :
    InspectorStack.initialize_interp I s interp context
      = ({ s with custom_print_tracer := some (I.initialize_interp t interp context).1 },
         (I.initialize_interp t interp context).2) ∧
    InspectorStack.step I s interp context
      = ({ s with custom_print_tracer := some (I.step t interp context).1 },
         (I.step t interp context).2) ∧
    InspectorStack.step_end I s interp context
      = ({ s with custom_print_tracer := some (I.step_end t interp context).1 },
         (I.step_end t interp context).2) ∧
    InspectorStack.log I s context lg
      = ({ s with custom_print_tracer := some (I.log t context lg).1 },
         (I.log t context lg).2) ∧
    InspectorStack.call I s context cin
      = ({ s with custom_print_tracer := some (I.call t context cin).1 },
         (I.call t context cin).2) ∧
    InspectorStack.call_end I s context cin cout
      = ({ s with custom_print_tracer := some (I.call_end t context cin cout).1 },
         (I.call_end t context cin cout).2) ∧
    InspectorStack.create I s context crin
      = ({ s with custom_print_tracer := some (I.create t context crin).1 },
         (I.create t context crin).2) ∧
    InspectorStack.create_end I s context crin crout
      = ({ s with custom_print_tracer := some (I.create_end t context crin crout).1 },
         (I.create_end t context crin crout).2) ∧
    InspectorStack.selfdestruct I s a b v
      = { s with custom_print_tracer := some (I.selfdestruct t a b v) } := by
  refine ⟨?_, ?_, ?_, ?_, ?_, ?_, ?_, ?_, ?_⟩ <;>
    simp [InspectorStack.initialize_interp, InspectorStack.step, InspectorStack.step_end,
      InspectorStack.log, InspectorStack.call, InspectorStack.call_end,
      InspectorStack.create, InspectorStack.create_end, InspectorStack.selfdestruct, h]
  · by_cases hc : (I.call_end t context cin cout).2.2 = cout <;>
      simp [hc, Prod.ext_iff]
  · by_cases hc : (I.create_end t context crin crout).2.2 = crout <;>
      simp [hc, Prod.ext_iff]

/-- Witness for C6 on a populated counting stack. -/
theorem singleton_stack_passthrough_witness :
    InspectorStack.initialize_interp countingObserver ⟨some 0, Hook.All⟩ () ()
      = ({ custom_print_tracer := some 0, hook := Hook.All }, (), ()) ∧
    InspectorStack.step countingObserver ⟨some 0, Hook.All⟩ () ()
      = ({ custom_print_tracer := some 0, hook := Hook.All }, (), ()) ∧
    InspectorStack.step_end countingObserver ⟨some 0, Hook.All⟩ () ()
      = ({ custom_print_tracer := some 0, hook := Hook.All }, (), ()) ∧
    InspectorStack.log countingObserver ⟨some 0, Hook.All⟩ () ()
      = ({ custom_print_tracer := some 0, hook := Hook.All }, ()) ∧
    InspectorStack.call countingObserver ⟨some 0, Hook.All⟩ () ()
      = ({ custom_print_tracer := some 0, hook := Hook.All }, (), (), Option.none) ∧
    InspectorStack.call_end countingObserver ⟨some 0, Hook.All⟩ () () 5
      = ({ custom_print_tracer := some 1, hook := Hook.All }, (), 5) ∧
    InspectorStack.create countingObserver ⟨some 0, Hook.All⟩ () ()
      = ({ custom_print_tracer := some 0, hook := Hook.All }, (), (), Option.none) ∧
    InspectorStack.create_end countingObserver ⟨some 0, Hook.All⟩ () () 5
      = ({ custom_print_tracer := some 1, hook := Hook.All }, (), 5) ∧
    InspectorStack.selfdestruct countingObserver ⟨some 0, Hook.All⟩ () () ()
      = { custom_print_tracer := some 0, hook := Hook.All } :=
  singleton_stack_passthrough countingObserver ⟨some 0, Hook.All⟩ 0 () () () () 5 () 5 () () ()
    rfl

/-- C7: construction from a configuration stores the configured hook and
populates the tracer slot exactly when `use_printer_tracer` is set, with a
default-initialized tracer. -/
theorem new_populates_configured_slots {τ : Type} [Inhabited τ]
    (config : InspectorStackConfig) :
    (InspectorStack.new config : InspectorStack τ).hook = config.hook ∧
    (InspectorStack.new config : InspectorStack τ).custom_print_tracer.isSome
      = config.use_printer_tracer ∧
    ∀ t, (InspectorStack.new config : InspectorStack τ).custom_print_tracer = some t →
      t = default := by
  unfold InspectorStack.new
  cases h : config.use_printer_tracer <;> simp [h]

/-- C8: an observer whose `call_end`/`create_end` returns an outcome
value-equal to the one it received is indistinguishable, in the dispatch's
final outcome, from an observer that returns its input unchanged, whatever
side effects either performs on its own state or the context. -/
theorem end_dispatch_unchanged_indistinguishable
    {τ Ctx Interp CallIn CallOut CreateIn CreateOut LogRec Addr Val : Type}
    [DecidableEq CallOut] [DecidableEq CreateOut]
    (I J : Inspector τ Ctx Interp CallIn CallOut CreateIn CreateOut LogRec Addr Val)
    (s : InspectorStack τ) (context : Ctx) (cin : CallIn) (cout : CallOut)
    (crin : CreateIn) (crout : CreateOut)
    (hI : ∀ t, (I.call_end t context cin cout).2.2 = cout)
    (hJ : ∀ t, (J.call_end t context cin cout).2.2 = cout)
    (hI2 : ∀ t, (I.create_end t context crin crout).2.2 = crout)
    (hJ2 : ∀ t, (J.create_end t context crin crout).2.2 = crout) :
    (InspectorStack.call_end I s context cin cout).2.2
      = (InspectorStack.call_end J s context cin cout).2.2 ∧
    (InspectorStack.create_end I s context crin crout).2.2
      = (InspectorStack.create_end J s context crin crout).2.2 := by
  cases hslot : s.custom_print_tracer with
  | none => simp [InspectorStack.call_end, InspectorStack.create_end, hslot]
  | some t =>
    constructor
    · simp [InspectorStack.call_end, hslot, hI t, hJ t]
    · simp [InspectorStack.create_end, hslot, hI2 t, hJ2 t]

/-- Witness for C8: a side-effecting observer that returns the received
outcome gives the same final outcome as the do-nothing observer. -/
theorem end_dispatch_unchanged_indistinguishable_witness :
    (InspectorStack.call_end countingObserver ⟨some 0, Hook.All⟩ () () 5).2.2
      = (InspectorStack.call_end idObserver ⟨some 0, Hook.All⟩ () () 5).2.2 ∧
    (InspectorStack.create_end countingObserver ⟨some 0, Hook.All⟩ () () 5).2.2
      = (InspectorStack.create_end idObserver ⟨some 0, Hook.All⟩ () () 5).2.2 :=
  end_dispatch_unchanged_indistinguishable countingObserver idObserver ⟨some 0, Hook.All⟩
    () () 5 () 5 (fun _ => rfl) (fun _ => rfl) (fun _ => rfl) (fun _ => rfl)

/-- C9: `should_inspect` reads only the inputs its hook variant names: with a
`Transaction` hook the result ignores the environment, with a `Block` hook it
ignores the transaction hash, and with `None` or `All` it ignores both. -/
theorem should_inspect_reads_only_named_inputs {τ : Type} (s : InspectorStack τ)
    (env env' : Env) (tx tx' : B256) :
    (∀ h, s.hook = Hook.Transaction h →
      s.should_inspect env tx = s.should_inspect env' tx) ∧
    (∀ block, s.hook = Hook.Block block →
      s.should_inspect env tx = s.should_inspect env tx') ∧
    (s.hook = Hook.None → s.should_inspect env tx = s.should_inspect env' tx') ∧
    (s.hook = Hook.All → s.should_inspect env tx = s.should_inspect env' tx') := by
  refine ⟨fun h hh => ?_, fun block hb => ?_, fun hn => ?_, fun ha => ?_⟩
  · simp [InspectorStack.should_inspect, hh]
  · simp [InspectorStack.should_inspect, hb]
  · simp [InspectorStack.should_inspect, hn]
  · simp [InspectorStack.should_inspect, ha]

/-- C10: every dispatch method leaves the stack's hook field unchanged. -/
theorem dispatch_preserves_hook
    {τ Ctx Interp CallIn CallOut CreateIn CreateOut LogRec Addr Val : Type}
    [DecidableEq CallOut] [DecidableEq CreateOut]
    (I : Inspector τ Ctx Interp CallIn CallOut CreateIn CreateOut LogRec Addr Val)
    (s : InspectorStack τ) (interp : Interp) (context : Ctx) (lg : LogRec)
    (cin : CallIn) (cout : CallOut) (crin : CreateIn) (crout : CreateOut)
    (a b : Addr) (v : Val) :
    (InspectorStack.initialize_interp I s interp context).1.hook = s.hook ∧
    (InspectorStack.step I s interp context).1.hook = s.hook ∧
    (InspectorStack.step_end I s interp context).1.hook = s.hook ∧
    (InspectorStack.log I s context lg).1.hook = s.hook ∧
    (InspectorStack.call I s context cin).1.hook = s.hook ∧
    (InspectorStack.call_end I s context cin cout).1.hook = s.hook ∧
    (InspectorStack.create I s context crin).1.hook = s.hook ∧
    (InspectorStack.create_end I s context crin crout).1.hook = s.hook ∧
    (InspectorStack.selfdestruct I s a b v).hook = s.hook := by
  cases hslot : s.custom_print_tracer <;>
    refine ⟨?_, ?_, ?_, ?_, ?_, ?_, ?_, ?_, ?_⟩ <;>
    simp [InspectorStack.initialize_interp, InspectorStack.step, InspectorStack.step_end,
      InspectorStack.log, InspectorStack.call, InspectorStack.call_end,
      InspectorStack.create, InspectorStack.create_end, InspectorStack.selfdestruct,
      hslot] <;>
    split <;> rfl

end EvmInspectors
